import Mathlib

/-!
Verification development for the TinyReAct agent core (`agent.py`).

The embedding is shallow: each Python method of the `TinyReAct` class is a
Lean function over an explicit state record, and the Python string
operations the code uses (`str.split` with a one-character separator,
`str.strip`, `str.startswith`, the substring test `in`) are modelled as
structurally recursive functions over the character list of a `String`,
so that every definition evaluates inside the kernel.

The model client (`genai`) is an external collaborator: a run is driven by
a scripted stream of model outcomes, one per `generate_content` call; each
outcome is either a returned text or a raised exception (with its
`str(e)` message).  Console printing and ANSI colouring are carried along
verbatim in the returned strings.  Python `eval` of a tool invocation is
modelled for the call shapes the module's own tools take: a registered
function name applied to integer literal arguments; other argument texts
are modelled as a raised exception, as `eval` raises on them, with the
exception text abstracted as "invalid syntax".  The network-backed tools
(`get_temperature`, the wikipedia tools) perform external I/O and their
invocation is modelled as a raised exception; only their names,
signatures and doc strings (which is all the core reads of them) are
transcribed.
-/

/-- One step of Python `str.startswith`, over character lists. -/
def charsStartWith : List Char → List Char → Bool
  | _, [] => true
  | [], _ :: _ => false
  | c :: cs, p :: ps => c = p && charsStartWith cs ps

/-- Python's substring test `pat in s`, over character lists (for a
nonempty pattern). -/
def charsContain : List Char → List Char → Bool
  | [], pat => charsStartWith [] pat
  | c :: cs, pat => charsStartWith (c :: cs) pat || charsContain cs pat

/-- Python `str.split(sep)` for a one-character separator: splits at every
occurrence and keeps empty pieces, so the result is always nonempty. -/
def splitOnChar (sep : Char) : List Char → List (List Char)
  | [] => [[]]
  | c :: cs =>
    match splitOnChar sep cs with
    | [] => [[]]
    | g :: gs => if c = sep then [] :: g :: gs else (c :: g) :: gs

/-- Drop leading whitespace characters. -/
def dropLeadingWs : List Char → List Char
  | [] => []
  | c :: cs => if c.isWhitespace then dropLeadingWs cs else c :: cs

/-- Python `str.strip()` over character lists: remove leading and trailing
whitespace. -/
def trimChars (l : List Char) : List Char :=
  ((dropLeadingWs ((dropLeadingWs l).reverse)).reverse)

/-- Python `str.split(sep)` for a one-character separator. -/
def pySplit (s : String) (sep : Char) : List String :=
  (splitOnChar sep s.data).map String.mk

/-- Python `str.strip()`. -/
def pyStrip (s : String) : String := String.mk (trimChars s.data)

/-- Python `str.startswith(pre)`. -/
def pyStartsWith (s pre : String) : Bool := charsStartWith s.data pre.data

/-- Python's substring test `pat in s` (nonempty pattern). -/
def pyContains (s pat : String) : Bool := charsContain s.data pat.data

/-- Value of a decimal digit character, if it is one. -/
def digitVal (c : Char) : Option Nat :=
  if '0' ≤ c ∧ c ≤ '9' then some (c.toNat - '0'.toNat) else none

/-- Parse a nonempty all-digit character list as a natural number. -/
def parseNatChars (l : List Char) : Option Nat :=
  if l.isEmpty then none
  else
    l.foldl
      (fun acc c =>
        match acc, digitVal c with
        | some n, some d => some (10 * n + d)
        | _, _ => none)
      (some 0)

/-- Parse a Python integer literal, optionally negated, as `eval` reads one
argument of the module's arithmetic tools. -/
def parsePyInt (s : String) : Option Int :=
  match s.data with
  | '-' :: rest => (parseNatChars rest).map (fun n => -(n : Int))
  | l => (parseNatChars l).map (fun n => (n : Int))

/-- A turn of the conversation history `self.messages`: Python keeps a dict
with a `role` and one text part; the model only ever reads role and text. -/
structure Turn where
  role : String
  text : String
deriving Repr, DecidableEq

/-- Outcome of one `generate_content` call on the injected model client:
the returned `response.text`, or a raised exception with message `str(e)`. -/
inductive ModelResponse where
  | success (text : String)
  | failure (errMsg : String)
deriving Repr, DecidableEq

/-- Outcome of `eval` on a tool invocation: the returned value rendered by
`str`, or a raised exception with message `str(e)`. -/
inductive EvalOutcome where
  | value (rendered : String)
  | exn (msg : String)
deriving Repr, DecidableEq

/-- A module-level tool function: its `__name__`, the text
`inspect.signature` renders, its `__doc__` string, and the behaviour of
calling it on integer literal arguments. -/
structure Tool where
  name : String
  sig : String
  doc : String
  impl : List Int → EvalOutcome

/-- Raised-exception outcome for a call with the wrong argument count
(Python `TypeError`, message abstracted). -/
def arityError (fname : String) : EvalOutcome :=
  .exn (fname ++ "() received the wrong number of arguments")

/-- The `add_numbers` tool (pure integer addition). -/
def add_numbers : Tool where
  name := "add_numbers"
  sig := "(x: int, y: int) -> int"
  doc := "\n    Adds two numbers.\n    parameter x: the first number to add.\n    parameter y: the second number to add.\n    returns: the sum of the two numbers.\n    example: add_numbers(4, 7)"
  impl := fun args =>
    match args with
    | [x, y] => .value (toString (x + y))
    | _ => arityError "add_numbers"

/-- The `divide_numbers` tool. Python division returns a `float`;
floating point is outside this embedding, so invoking it is modelled as a
raised exception. No claim exercises it; only its name, signature and doc
are read by the core. -/
def divide_numbers : Tool where
  name := "divide_numbers"
  sig := "(x: float, y: float) -> float"
  doc := "\n    Divides two numbers.\n    parameter x: the first number to divide.\n    parameter y: the second number to divide.\n    returns: the quotient of the two numbers.\n    example: divide_numbers(10, 3)"
  impl := fun _ => .exn "float result not modelled"

/-- The `subtract_numbers` tool (pure integer subtraction). -/
def subtract_numbers : Tool where
  name := "subtract_numbers"
  sig := "(x: int, y: int) -> int"
  doc := "\n    Subtract second number from first number.\n    parameter x: the first number.\n    parameter y: the second number.\n    returns: the difference between the two numbers.\n    example: subtract_numbers(4, 7)"
  impl := fun args =>
    match args with
    | [x, y] => .value (toString (x - y))
    | _ => arityError "subtract_numbers"

/-- The `multiply_numbers` tool (pure integer multiplication). -/
def multiply_numbers : Tool where
  name := "multiply_numbers"
  sig := "(x: int, y: int) -> int"
  doc := "\n    Multiply two numbers.\n    parameter x: the first number.\n    parameter y: the second number.\n    returns: the product of the two numbers.\n    example: multiply_numbers(4, 7)"
  impl := fun args =>
    match args with
    | [x, y] => .value (toString (x * y))
    | _ => arityError "multiply_numbers"

/-- The `get_temperature` tool performs network I/O (open-meteo); its
invocation is modelled as a raised exception, the core only reads its
name, signature and doc. -/
def get_temperature : Tool where
  name := "get_temperature"
  sig := "(latitude: float, longitude: float) -> str"
  doc := "\n    Get the temperature for a location.\n    parameter latitude: the latitude of the location, represented as a positive number for N latitudes and a negative number for S latitudes\n    parameter longitude: the longitude of the location, represented as a positive number for E longitudes and a negative number for W longitudes\n    returns: a string containing the temperature\n    example: get_temperature(13.1, -97.4)"
  impl := fun _ => .exn "external call not modelled"

/-- The `search_wikipedia_page` tool performs network I/O; modelled as a
raised exception, only name, signature and doc are read by the core. -/
def search_wikipedia_page : Tool where
  name := "search_wikipedia_page"
  sig := "(query: str) -> List[str]"
  doc := "\n    Searches Wikipedia for a given query and returns a list of relevant page titles. This is useful for wikipedia_page_content() and wikipedia_coordinates() which require a page_title as input. Try using this usful when frequently getting \"Wikipedia page for '{query}' not found\" errors.\n    parameter query: the search term or question for Wikipedia.\n    returns: a list of relevant page titles.\n    example: search_wikipedia_page(\"WW2 casualties\")\n    "
  impl := fun _ => .exn "external call not modelled"

/-- The `wikipedia_coordinates` tool performs network I/O; modelled as a
raised exception, only name, signature and doc are read by the core. -/
def wikipedia_coordinates : Tool where
  name := "wikipedia_coordinates"
  sig := "(page_title: str) -> List[str]"
  doc := "\n    Provides the coordinates for Wikipedia pages if they are a location. First use search_wikipedia_page to get the page_title.\n    parameter page_title: the title of the Wikipedia page to get the coordinates of.\n    returns: a latitude and longitude.\n    example: wikipedia_coordinates(\"Tallahassee, FL\")\n    "
  impl := fun _ => .exn "external call not modelled"

/-- The `wikipedia_summary` tool performs network I/O; modelled as a
raised exception, only name, signature and doc are read by the core. -/
def wikipedia_summary : Tool where
  name := "wikipedia_summary"
  sig := "(query: str, sentences: int = 10) -> str"
  doc := "\n    Searches Wikipedia for a given query and returns a summary. Returns up to 10 sentences max.\n    parameter query: the search term or question for Wikipedia.\n    parameter sentences: the number of sentences to try and retrieve for the summary.\n    returns: a string containing the summary of the Wikipedia page, or an error message if the page is not found or an error occurs.\n    example: wikipedia_summary(\"United States president\", 5)\n    "
  impl := fun _ => .exn "external call not modelled"

/-- The module's global namespace of tool functions, in definition order:
`eval` resolves a function name against these (the dispatcher's membership
check against `self.tools` happens first, in `TinyReAct.act`). -/
def globalTools : List Tool :=
  [add_numbers, divide_numbers, subtract_numbers, multiply_numbers,
   get_temperature, search_wikipedia_page, wikipedia_coordinates, wikipedia_summary]

/-- The tool list `main()` passes to the agent, in its order. -/
def mainTools : List Tool :=
  [add_numbers, subtract_numbers, multiply_numbers, divide_numbers,
   get_temperature, search_wikipedia_page, wikipedia_coordinates, wikipedia_summary]

/-- Python `eval(function_call)` restricted to the call shapes the module's
tools take: `name(arg, ..., arg)` with integer literal arguments, resolved
against the module's global namespace. Call texts outside that shape make
`eval` raise; the exception text is abstracted as "invalid syntax". -/
def evalCall (function_call : String) : EvalOutcome :=
  match pySplit function_call '(' with
  | [fname, argsPart] =>
    if pyStartsWith (String.mk argsPart.data.reverse) ")" then
      let argsStr := String.mk (argsPart.data.dropLast)
      let args? : Option (List Int) :=
        if (pyStrip argsStr) = "" then some []
        else (pySplit argsStr ',').mapM (fun a => parsePyInt (pyStrip a))
      match args? with
      | none => .exn "invalid syntax"
      | some args =>
        match globalTools.find? (fun t => t.name = pyStrip fname) with
        | some t => t.impl args
        | none => .exn ("name '" ++ pyStrip fname ++ "' is not defined")
    else .exn "invalid syntax"
  | _ => .exn "invalid syntax"

/-- The ANSI colour constants of class `TextColor`. -/
def TextColor.MODEL : String := "\x1b[94m"

/-- Yellow, used for observations. -/
def TextColor.OBSERVATION : String := "\x1b[93m"

/-- Green, used for the final answer. -/
def TextColor.ANSWER : String := "\x1b[92m"

/-- Reset colour. -/
def TextColor.RESET : String := "\x1b[0m"

/-- Red, used for loop termination. -/
def TextColor.TERMINATE : String := "\x1b[91m"

/-- Purple, used for the query banner. -/
def TextColor.QUERY : String := "\x1b[95m"

/-- The text of `instruction_prompt_template` before the `{tool_prompt}`
substitution point. -/
def instruction_prompt_template_before : String :=
  "\nUse the following thinking trace pattern and tools to solve the problem in a number of steps.\n\n# TOOLS\n"

/-- The text of `instruction_prompt_template` after the `{tool_prompt}`
substitution point. -/
def instruction_prompt_template_after : String :=
  "\n\n# EXAMPLE THINKING TRACE\n## INPUT\nQuery: What is 10 * 3 + 10?\n\nThought1: First, I need to multiply 10 by 3.\nAction1: multiply_numbers(10, 3)\n\nObservation1: 30\n\n## OUTPUT\nThought2: Now I need to add 10 to this result.\nAction2: add_numbers(30, 10)\n\n# RULES\n1. Do not make up observations. Observations should only be provided as input, never as output.\n2. One action per turn. Do not make multiple tool calls or skip steps. Each response should only contain a single Thought, Action, or Answer.\n3. Think out loud and feel free to be expressive and explain your thought process in each Thought. Each Thought should be a minimum of 3 sentences.\n4. Denote the iteration of each step (as-in Thought1, Action1)\n5. When you have the final answer, and ONLY then, use the format:\nAnswer: [your final answer]\n6. When you have the final answer, rephrase the answer in the context of the original query, and briefly summarize the work you did, listing them as numbered steps.\n7. If you cannot get the correct information from a tool, try different variations of the query. After 5 attempts, return an error.\n8. Stick to the format as shown.\n"

/-- The tool documentation block `__init__` accumulates:
one `"\n\n" + __name__ + signature + __doc__` piece per tool, in order. -/
def toolPromptFor (tools : List Tool) : String :=
  tools.foldl (fun acc t => acc ++ "\n\n" ++ t.name ++ t.sig ++ t.doc) ""

/-- The state of a `TinyReAct` instance: `self.messages`, `self.iteration`,
`self.ttl`, `self.tools` and the formatted `self.instruction_prompt`.
The Gemini client handle carries no loop-relevant state and is left to the
scripted model stream. -/
structure TinyReAct where
  messages : List Turn
  iteration : Nat
  ttl : Nat
  tools : List Tool
  instruction_prompt : String

/-- `TinyReAct.__init__(ttl, tools)`: empty history, iteration 0, the given
ttl and tools, and the instruction prompt formatted with the rendered tool
documentation. It performs no validation of the tool list. -/
def TinyReAct.init (ttl : Nat) (tools : List Tool) : TinyReAct where
  messages := []
  iteration := 0
  ttl := ttl
  tools := tools
  instruction_prompt :=
    instruction_prompt_template_before ++ toolPromptFor tools ++ instruction_prompt_template_after

/-- The text of the seed turn `query()` installs: instruction prompt,
thinking-trace header and the user's query. -/
def seedText (instructionPrompt q : String) : String :=
  instructionPrompt ++ "\n\n#THINKING TRACE\n\nQuery: " ++ q ++ "\n"

/-- The first statements of `TinyReAct.query(query)`: `self.messages` is
replaced by a fresh single-turn list seeded from the query; nothing else
of the state is touched. -/
def TinyReAct.startQuery (s : TinyReAct) (q : String) : TinyReAct :=
  { s with messages := [⟨"user", seedText s.instruction_prompt q⟩] }

/-- The text `reason()` hands back to `iterate()`: the model's `response.text`
on success; on a raised exception the caught error message. -/
def reasonText (r : ModelResponse) : String :=
  match r with
  | .success t => t
  | .failure e => "Error calling Gemini API: " ++ e

/-- `TinyReAct.reason()`: on success the model text is appended to the
history as a model turn and returned; a raised exception is caught and an
error message returned, with the history unchanged. -/
def TinyReAct.reason (s : TinyReAct) (r : ModelResponse) : TinyReAct × String :=
  match r with
  | .success t => ({ s with messages := s.messages ++ [⟨"model", t⟩] }, t)
  | .failure e => (s, "Error calling Gemini API: " ++ e)

/-- `TinyReAct.act(function_call)`: extract the function name (text before
the first `(`, stripped), reject a name absent from `self.tools` with an
error string and, notably, without touching the history; otherwise `eval`
the call, render the result or the caught exception as the observation
text, append the observation as a user turn, and return it. -/
def TinyReAct.act (s : TinyReAct) (function_call : String) : TinyReAct × String :=
  let function_name := pyStrip ((pySplit function_call '(').headD "")
  if ((s.tools.map Tool.name).contains function_name) = false then
    (s, "\nError: Function '" ++ function_name ++ "' is not in the list of available tools")
  else
    let observation :=
      match evalCall function_call with
      | .value result => "Observation" ++ toString s.iteration ++ ": " ++ result
      | .exn e => "\nError: Cannot execute function " ++ function_call ++ ": " ++ e
    ({ s with messages := s.messages ++ [⟨"user", observation⟩] }, observation)

/-- The stripped `Action`-prefixed lines of a model response, in document
order: `[line.strip() for line in reasoning.split('\n') if line.startswith("Action")]`. -/
def actionLines (reasoning : String) : List String :=
  ((pySplit reasoning '\n').filter (fun l => pyStartsWith l "Action")).map pyStrip

/-- What one call of `TinyReAct.iterate()` returns: the `(result, continue)`
pair, or an uncaught Python exception escaping the method. -/
inductive IterResult where
  | ret (msg : String) (cont : Bool)
  | crash (err : String)
deriving Repr, DecidableEq

/-- `TinyReAct.iterate()`: terminate when the iteration budget is reached;
otherwise call the model once and classify its text: empty ends the query,
a text containing `"Answer"` anywhere ends it as answered, a text
containing `"Action"` anywhere increments the counter and dispatches the
first `Action`-prefixed line's text between its first and second colon
(an `IndexError` escapes when no line starts with `Action` or the line has
no colon), and any other text continues the loop unchanged. -/
def TinyReAct.iterate (s : TinyReAct) (r : ModelResponse) : TinyReAct × IterResult :=
  if s.ttl ≤ s.iteration then
    (s, .ret (TextColor.TERMINATE ++ "Terminate: Reached maximum number of iterations" ++ TextColor.RESET) false)
  else
    let s1 := (s.reason r).1
    let reasoning := (s.reason r).2
    if reasoning = "" then
      (s1, .ret "Error: No response from model" false)
    else if pyContains reasoning "Answer" then
      (s1, .ret (TextColor.ANSWER ++ reasoning ++ TextColor.RESET) false)
    else if pyContains reasoning "Action" then
      let s2 : TinyReAct := { s1 with iteration := s1.iteration + 1 }
      match actionLines reasoning with
      | [] => (s2, .crash "IndexError: list index out of range")
      | action_line :: _ =>
        match pySplit action_line ':' with
        | [] => (s2, .crash "IndexError: list index out of range")
        | [_] => (s2, .crash "IndexError: list index out of range")
        | _ :: after_colon :: _ =>
          let function_call := pyStrip after_colon
          let acted := s2.act function_call
          (acted.1, .ret (TextColor.MODEL ++ reasoning ++ TextColor.RESET ++ "\n" ++ TextColor.OBSERVATION ++ acted.2 ++ TextColor.RESET) true)
    else
      (s1, .ret "Error: Answer or Action not found in model response" true)

/-- How the `while True` loop of `query()` ended: a final `iterate` result
with `continue == False`; an uncaught exception; or still running when the
unrolling bound ran out (the Python loop has no bound of its own). -/
inductive LoopOutcome where
  | done (lastMsg : String)
  | crashed (err : String)
  | running
deriving Repr, DecidableEq

/-- A finished (or cut-off) run: final state, number of `generate_content`
calls made, and how the loop ended. -/
structure RunResult where
  state : TinyReAct
  modelCalls : Nat
  outcome : LoopOutcome

/-- The `while True` loop of `query()` driven by a scripted model stream
(`model i` is the outcome of the `i`-th `generate_content` call).
`calls` counts model invocations: `iterate` reaches `reason()` exactly
when the budget test `iteration >= ttl` fails, so the count increases
on those steps only. `fuel` bounds the unrolling because the Python loop
need not terminate; running out of fuel reports `LoopOutcome.running`. -/
def runLoop (model : Nat → ModelResponse) : Nat → TinyReAct → Nat → RunResult
  | 0, s, calls => ⟨s, calls, .running⟩
  | fuel + 1, s, calls =>
    let calls' := if s.ttl ≤ s.iteration then calls else calls + 1
    match s.iterate (model calls) with
    | (s', .crash e) => ⟨s', calls', .crashed e⟩
    | (s', .ret msg false) => ⟨s', calls', .done msg⟩
    | (s', .ret _ true) => runLoop model fuel s' calls'

/-- `TinyReAct.query(query)`: reseed the history from the query, then run
the loop. The rendered `message_history()` return string is presentation
only; the run's final state carries the full conversation log. -/
def TinyReAct.query (s : TinyReAct) (q : String) (model : Nat → ModelResponse) (fuel : Nat) : RunResult :=
  runLoop model fuel (s.startQuery q) 0

/-- A model response on which `iterate` takes its silent continue branch:
the text `reason()` returns is nonempty and contains neither `"Answer"`
nor `"Action"`. -/
def malformedResponse (r : ModelResponse) : Bool :=
  !(reasonText r == "") && !(pyContains (reasonText r) "Answer") && !(pyContains (reasonText r) "Action")

/-- The agent `main()` would build with the default ttl of 5: used as the
concrete instance in witnesses and counterexamples. -/
def agent0 : TinyReAct := TinyReAct.init 5 mainTools

/-- The scripted model of the spec's worked scenario: first
`Action1: multiply_numbers(10, 3)`, then `Action2: add_numbers(30, 10)`,
then `Answer: 40`. -/
def c8Model : Nat → ModelResponse := fun i =>
  [ModelResponse.success "Action1: multiply_numbers(10, 3)",
   ModelResponse.success "Action2: add_numbers(30, 10)",
   ModelResponse.success "Answer: 40"].getD i (ModelResponse.success "")

/-- The scenario run: `main()`'s agent (ttl 10, all eight tools) queried
with "What is 10 * 3 + 10?" against the scripted scenario model. -/
def c8Run : RunResult :=
  (TinyReAct.init 10 mainTools).query "What is 10 * 3 + 10?" c8Model 10

/-- An agent instance that has already consumed 3 of its 5 iterations on an
earlier query, with the old conversation log still in place. -/
def c10Agent : TinyReAct where
  messages := [⟨"user", "a previous conversation"⟩]
  iteration := 3
  ttl := 5
  tools := []
  instruction_prompt := "PROMPT"

/-- `act` leaves the iteration counter unchanged on both of its paths. -/
theorem act_fst_iteration (s : TinyReAct) (fc : String) : ((s.act fc).1).iteration = s.iteration := by
  unfold TinyReAct.act
  dsimp only
  split <;> rfl

/-- `act` leaves the ttl unchanged on both of its paths. -/
theorem act_fst_ttl (s : TinyReAct) (fc : String) : ((s.act fc).1).ttl = s.ttl := by
  unfold TinyReAct.act
  dsimp only
  split <;> rfl

/-- `iterate` never changes the configured ttl. -/
theorem iterate_fst_ttl (s : TinyReAct) (r : ModelResponse) : ((s.iterate r).1).ttl = s.ttl := by
  unfold TinyReAct.iterate
  cases r <;> dsimp only [TinyReAct.reason] <;> (repeat' split) <;>
    first
    | rfl
    | exact act_fst_ttl _ _

/-- One `iterate` step never decreases the iteration counter. -/
theorem iterate_fst_iteration_mono (s : TinyReAct) (r : ModelResponse) :
    s.iteration ≤ ((s.iterate r).1).iteration := by
  unfold TinyReAct.iterate
  cases r <;> dsimp only [TinyReAct.reason] <;> (repeat' split) <;>
    simp [act_fst_iteration]

/-- One `iterate` step increases the iteration counter by at most one. -/
theorem iterate_fst_iteration_le (s : TinyReAct) (r : ModelResponse) :
    ((s.iterate r).1).iteration ≤ s.iteration + 1 := by
  unfold TinyReAct.iterate
  cases r <;> dsimp only [TinyReAct.reason] <;> (repeat' split) <;>
    simp [act_fst_iteration]

/-- With the budget reached, `iterate` terminates at once, without touching
the state and without reaching the model. -/
theorem iterate_of_budget (s : TinyReAct) (r : ModelResponse) (h : s.ttl ≤ s.iteration) :
    s.iterate r = (s, .ret (TextColor.TERMINATE ++ "Terminate: Reached maximum number of iterations" ++ TextColor.RESET) false) := by
  unfold TinyReAct.iterate
  rw [if_pos h]

/-- One `iterate` step keeps the counter within the ttl. -/
theorem iterate_le_ttl (s : TinyReAct) (r : ModelResponse) (h : s.iteration ≤ s.ttl) :
    ((s.iterate r).1).iteration ≤ s.ttl := by
  by_cases hb : s.ttl ≤ s.iteration
  · rw [iterate_of_budget s r hb]
    exact h
  · have := iterate_fst_iteration_le s r
    omega

/-- A continuing `iterate` step on a response that is not silently-continued
malformed text is an action step: it increments the counter by exactly one. -/
theorem iterate_ret_true (s : TinyReAct) (r : ModelResponse) (s' : TinyReAct) (msg : String)
    (hm : malformedResponse r = false)
    (h : s.iterate r = (s', IterResult.ret msg true)) : s'.iteration = s.iteration + 1 := by
  unfold TinyReAct.iterate at h
  cases r with
  | success t =>
    dsimp only [TinyReAct.reason] at h
    split at h
    · simp at h
    · split at h
      · simp at h
      · split at h
        · simp at h
        · split at h
          · split at h
            · simp at h
            · split at h
              · simp at h
              · simp at h
              · rw [Prod.mk.injEq] at h
                have h1 := h.1
                subst h1
                rw [act_fst_iteration]
          · simp only [malformedResponse, reasonText] at hm
            rename_i hne hans hact
            simp [hne, hans, hact] at hm
  | failure e =>
    dsimp only [TinyReAct.reason] at h
    split at h
    · simp at h
    · split at h
      · simp at h
      · split at h
        · simp at h
        · split at h
          · split at h
            · simp at h
            · split at h
              · simp at h
              · simp at h
              · rw [Prod.mk.injEq] at h
                have h1 := h.1
                subst h1
                rw [act_fst_iteration]
          · simp only [malformedResponse, reasonText] at hm
            rename_i hne hans hact
            simp [hne, hans, hact] at hm

/-- The loop never changes the configured ttl. -/
theorem runLoop_state_ttl (model : Nat → ModelResponse) (fuel : Nat) :
    ∀ (s : TinyReAct) (calls : Nat), (runLoop model fuel s calls).state.ttl = s.ttl := by
  induction fuel with
  | zero => intro s calls; rfl
  | succ n ih =>
    intro s calls
    simp only [runLoop]
    rcases hres : s.iterate (model calls) with ⟨s', res⟩
    have hs' : s'.ttl = s.ttl := by
      have := iterate_fst_ttl s (model calls); rw [hres] at this; exact this
    rcases res with ⟨msg, cont⟩ | err
    · cases cont
      · simpa using hs'
      · simpa [ih s' _] using hs'
    · simpa using hs'

/-- Across a whole run, the iteration counter never decreases. -/
theorem runLoop_iteration_mono (model : Nat → ModelResponse) (fuel : Nat) :
    ∀ (s : TinyReAct) (calls : Nat), s.iteration ≤ (runLoop model fuel s calls).state.iteration := by
  induction fuel with
  | zero => intro s calls; exact Nat.le_refl _
  | succ n ih =>
    intro s calls
    simp only [runLoop]
    rcases hres : s.iterate (model calls) with ⟨s', res⟩
    have hs' : s.iteration ≤ s'.iteration := by
      have := iterate_fst_iteration_mono s (model calls); rw [hres] at this; exact this
    rcases res with ⟨msg, cont⟩ | err
    · cases cont
      · simpa using hs'
      · simp only
        exact Nat.le_trans hs' (ih s' _)
    · simpa using hs'

/-- Across a whole run, the iteration counter never exceeds the ttl. -/
theorem runLoop_iteration_le_ttl (model : Nat → ModelResponse) (fuel : Nat) :
    ∀ (s : TinyReAct) (calls : Nat), s.iteration ≤ s.ttl →
      (runLoop model fuel s calls).state.iteration ≤ s.ttl := by
  induction fuel with
  | zero => intro s calls h; exact h
  | succ n ih =>
    intro s calls h
    simp only [runLoop]
    rcases hres : s.iterate (model calls) with ⟨s', res⟩
    have httl : s'.ttl = s.ttl := by
      have := iterate_fst_ttl s (model calls); rw [hres] at this; exact this
    have hle : s'.iteration ≤ s.ttl := by
      have := iterate_le_ttl s (model calls) h; rw [hres] at this; exact this
    rcases res with ⟨msg, cont⟩ | err
    · cases cont
      · simpa using hle
      · simp only
        have := ih s' (if s.ttl ≤ s.iteration then calls else calls + 1) (by omega)
        omega
    · simpa using hle

/-- When no scripted response takes the silent malformed-continue branch,
every continuing step consumes one unit of budget, so the number of model
invocations in a run is bounded by the remaining budget plus one. -/
theorem runLoop_calls_le (model : Nat → ModelResponse) (fuel : Nat)
    (hm : ∀ i, malformedResponse (model i) = false) :
    ∀ (s : TinyReAct) (calls : Nat), s.iteration ≤ s.ttl →
      (runLoop model fuel s calls).modelCalls ≤ calls + (s.ttl - s.iteration) + 1 := by
  induction fuel with
  | zero => intro s calls h; simp only [runLoop]; omega
  | succ n ih =>
    intro s calls h
    simp only [runLoop]
    by_cases hb : s.ttl ≤ s.iteration
    · rw [iterate_of_budget s (model calls) hb]
      simp [hb]
    · rcases hres : s.iterate (model calls) with ⟨s', res⟩
      rcases res with ⟨msg, cont⟩ | err
      · cases cont
        · simp only [if_neg hb]
          omega
        · simp only [if_neg hb]
          have hiter : s'.iteration = s.iteration + 1 :=
            iterate_ret_true s (model calls) s' msg (hm calls) hres
          have httl : s'.ttl = s.ttl := by
            have := iterate_fst_ttl s (model calls); rw [hres] at this; exact this
          have := ih s' (calls + 1) (by omega)
          omega
      · simp only [if_neg hb]
        omega

/-- C1 (counterexample): with ttl = 1 and a model that keeps emitting
"thinking..." — a response with neither an Answer nor an Action token —
the query loop has made 4 model invocations, more than ttl + 1 = 2, and is
still running, refuting the claimed bound of ttl + 1 model invocations for
every response sequence. The counter never moved, so the malformed steps
consumed no budget. -/
theorem C1_counterexample :
    (runLoop (fun _ => ModelResponse.success "thinking...") 4
        ((TinyReAct.init 1 mainTools).startQuery "q") 0).outcome = LoopOutcome.running ∧
    (runLoop (fun _ => ModelResponse.success "thinking...") 4
        ((TinyReAct.init 1 mainTools).startQuery "q") 0).modelCalls = 4 ∧
    (runLoop (fun _ => ModelResponse.success "thinking...") 4
        ((TinyReAct.init 1 mainTools).startQuery "q") 0).state.iteration = 0 :=
  ⟨by decide, by decide, by decide⟩

/-- C1 (amended): the iteration counter is monotonically non-decreasing —
per step and across any run — and never exceeds the configured ttl; and
provided no scripted response takes the silent malformed-continue branch
(its text is empty or mentions `Answer` or `Action`), a run starting with
`iterationCount = s.iteration` makes at most `ttl - s.iteration + 1` model
invocations, in particular ttl + 1 from a fresh query. Runs with
malformed responses are exempt from the bound (see the counterexample). -/
theorem C1_amended (model : Nat → ModelResponse) (fuel : Nat) (s : TinyReAct)
    (h : s.iteration ≤ s.ttl) (hm : ∀ i, malformedResponse (model i) = false) :
    (∀ (s' : TinyReAct) (r : ModelResponse), s'.iteration ≤ ((s'.iterate r).1).iteration) ∧
    (s.iteration ≤ (runLoop model fuel s 0).state.iteration ∧
     (runLoop model fuel s 0).state.iteration ≤ s.ttl ∧
     (runLoop model fuel s 0).modelCalls ≤ s.ttl - s.iteration + 1) := by
  refine ⟨iterate_fst_iteration_mono, runLoop_iteration_mono model fuel s 0,
    runLoop_iteration_le_ttl model fuel s 0 h, ?_⟩
  have := runLoop_calls_le model fuel hm s 0 h
  omega

/-- C1 (witness): the amended theorem applied to a model that answers at
once, on the default agent. -/
theorem C1_witness :
    agent0.iteration ≤ (runLoop (fun _ => ModelResponse.success "Answer: done") 3 agent0 0).state.iteration ∧
    (runLoop (fun _ => ModelResponse.success "Answer: done") 3 agent0 0).state.iteration ≤ agent0.ttl ∧
    (runLoop (fun _ => ModelResponse.success "Answer: done") 3 agent0 0).modelCalls ≤ agent0.ttl - agent0.iteration + 1 :=
  (C1_amended (fun _ => ModelResponse.success "Answer: done") 3 agent0 (by decide)
    (fun _ => (by decide : malformedResponse (ModelResponse.success "Answer: done") = false))).2

/-- C2 (code bug evaluated): classification is not total. A response that
contains the token `Action` but has no line starting with it, and a
response whose `Action` line has no colon, each make `iterate` raise an
uncaught `IndexError` instead of classifying a malformed step and
continuing. -/
theorem C2_classification_crashes :
    (agent0.iterate (.success "Take Action")).2 = IterResult.crash "IndexError: list index out of range" ∧
    (agent0.iterate (.success "Action1 add_numbers(1, 2)")).2 = IterResult.crash "IndexError: list index out of range" :=
  ⟨by decide, by decide⟩

/-- C3 (counterexample): when the model call raises, the controller does
not stop: the exception is caught inside `reason`, its message contains
neither token, and `iterate` returns with `continue = true`, so the query
goes on to another model call instead of ending in a model-error state.
The counter and the log are unchanged, but the claimed immediate terminal
transition does not happen. -/
theorem C3_counterexample :
    (agent0.iterate (.failure "connection timeout")).2 =
      IterResult.ret "Error: Answer or Action not found in model response" true ∧
    (agent0.iterate (.failure "connection timeout")).1.iteration = agent0.iteration ∧
    (agent0.iterate (.failure "connection timeout")).1.messages = agent0.messages :=
  ⟨by decide, by decide, by decide⟩

/-- C3 (amended): a raised model-call exception is caught and converted to
the text "Error calling Gemini API: ..."; whenever that text contains
neither `Answer` nor `Action`, the step is treated as malformed output —
the loop continues with the state (counter and log) completely unchanged
and nothing is retried inside the step. Only an empty successful response
ends the query immediately with the model-error result, the counter again
unchanged (the empty model turn is still logged). -/
theorem C3_amended (s : TinyReAct) (e : String) (h : s.iteration < s.ttl)
    (ha : pyContains ("Error calling Gemini API: " ++ e) "Answer" = false)
    (hb : pyContains ("Error calling Gemini API: " ++ e) "Action" = false) :
    s.iterate (.failure e) = (s, .ret "Error: Answer or Action not found in model response" true) ∧
    s.iterate (.success "") =
      ({ s with messages := s.messages ++ [⟨"model", ""⟩] }, .ret "Error: No response from model" false) := by
  have hne : ("Error calling Gemini API: " ++ e) ≠ "" := by
    intro heq
    have := congrArg String.data heq
    rw [String.data_append] at this
    simp at this
  constructor
  · unfold TinyReAct.iterate
    rw [if_neg (by omega)]
    dsimp only [TinyReAct.reason]
    rw [if_neg hne, if_neg (by simp [ha]), if_neg (by simp [hb])]
  · unfold TinyReAct.iterate
    rw [if_neg (by omega)]
    dsimp only [TinyReAct.reason]
    rw [if_pos rfl]

/-- C3 (witness): the amended theorem at a concrete exception message on
the default agent. -/
theorem C3_witness :
    agent0.iterate (.failure "quota exceeded") =
      (agent0, .ret "Error: Answer or Action not found in model response" true) ∧
    agent0.iterate (.success "") =
      ({ agent0 with messages := agent0.messages ++ [⟨"model", ""⟩] }, .ret "Error: No response from model" false) :=
  C3_amended agent0 "quota exceeded" (by decide) (by decide) (by decide)

/-- C4 (counterexample): a response in which `Answer` occurs only mid-line,
inside prose, is still classified as the final answer and terminates the
loop, refuting the claimed line-prefix condition. -/
theorem C4_counterexample :
    (agent0.iterate (.success "I do not know the Answer yet")).2 =
      IterResult.ret (TextColor.ANSWER ++ "I do not know the Answer yet" ++ TextColor.RESET) false :=
  by decide

/-- C4 (amended): below the budget, a nonempty model response is classified
as the answer — `iterate` returns the answer-coloured text with
`continue = false` — if and only if the raw text contains the substring
`Answer` anywhere, mid-line occurrences included; no line structure is
consulted. -/
theorem C4_amended (s : TinyReAct) (t : String) (h : s.iteration < s.ttl) (hne : t ≠ "") :
    (s.iterate (.success t)).2 = .ret (TextColor.ANSWER ++ t ++ TextColor.RESET) false ↔
      pyContains t "Answer" = true := by
  constructor
  · intro hret
    by_contra hno
    have hno' : pyContains t "Answer" = false := by
      cases hcontains : pyContains t "Answer"
      · rfl
      · exact absurd hcontains hno
    unfold TinyReAct.iterate at hret
    rw [if_neg (by omega)] at hret
    dsimp only [TinyReAct.reason] at hret
    rw [if_neg hne, if_neg (by simp [hno'])] at hret
    split at hret
    · split at hret
      · simp at hret
      · split at hret <;> simp at hret
    · simp at hret
  · intro hc
    unfold TinyReAct.iterate
    rw [if_neg (by omega)]
    dsimp only [TinyReAct.reason]
    rw [if_neg hne, if_pos hc]

/-- C4 (witness): the amended theorem applied to the response
"Answer: 42" on the default agent. -/
theorem C4_witness :
    (agent0.iterate (.success "Answer: 42")).2 =
      IterResult.ret (TextColor.ANSWER ++ "Answer: 42" ++ TextColor.RESET) false :=
  (C4_amended agent0 "Answer: 42" (by decide) (by decide)).mpr (by decide)

/-- C5 (counterexample): an ActionStep naming an unknown capability reaches
the dispatcher, which returns an error Observation but appends nothing —
the conversation log is unchanged — refuting that every dispatched step,
whether the capability exists or not, lands in the log. -/
theorem C5_counterexample :
    (agent0.act "unknown_tool(5)").1.messages = agent0.messages ∧
    (agent0.act "unknown_tool(5)").2 =
      "\nError: Function 'unknown_tool' is not in the list of available tools" :=
  ⟨by decide, by decide⟩

/-- C5 (amended): for an ActionStep whose extracted capability name is in
the registry, exactly one Observation — the dispatcher's return value,
success or failure — is appended to the conversation log as a new
user-role turn before the dispatcher returns, and nothing else of the
state changes; for an unknown capability name the error Observation is
returned to the caller but the state, the log included, is left untouched. -/
theorem C5_amended (s : TinyReAct) (fc : String) :
    ((s.tools.map Tool.name).contains (pyStrip ((pySplit fc '(').headD "")) = true →
      (s.act fc).1.messages = s.messages ++ [⟨"user", (s.act fc).2⟩] ∧
      (s.act fc).1.iteration = s.iteration ∧ (s.act fc).1.ttl = s.ttl) ∧
    ((s.tools.map Tool.name).contains (pyStrip ((pySplit fc '(').headD "")) = false →
      (s.act fc).1 = s) := by
  constructor
  · intro hmem
    unfold TinyReAct.act
    dsimp only
    rw [if_neg (by rw [hmem]; simp)]
    exact ⟨rfl, rfl, rfl⟩
  · intro hmem
    unfold TinyReAct.act
    dsimp only
    rw [if_pos hmem]

/-- C5 (witness): the amended theorem's registered-capability half at a
concrete call on the default agent: the Observation turn is appended. -/
theorem C5_witness :
    (agent0.act "add_numbers(1, 2)").1.messages =
      agent0.messages ++ [⟨"user", (agent0.act "add_numbers(1, 2)").2⟩] ∧
    (agent0.act "add_numbers(1, 2)").1.iteration = agent0.iteration ∧
    (agent0.act "add_numbers(1, 2)").1.ttl = agent0.ttl :=
  (C5_amended agent0 "add_numbers(1, 2)").1 (by decide)

/-- C6: an ActionStep whose extracted capability name is not among the
registered tool names yields the error Observation
"\nError: Function '<name>' is not in the list of available tools", which
names the offending capability; the loop continues (`continue = true`)
and the step still counts: the iteration counter has been incremented by
one. The model turn is logged; per C5, the error Observation itself is
returned but not logged. -/
theorem C6_unknown_capability (s : TinyReAct) (t : String)
    (httl : s.iteration < s.ttl) (hne : t ≠ "")
    (hans : pyContains t "Answer" = false) (hact : pyContains t "Action" = true)
    (line : String) (rest : List String) (hlines : actionLines t = line :: rest)
    (p0 p1 : String) (ps : List String) (hsplit : pySplit line ':' = p0 :: p1 :: ps)
    (hunknown : (s.tools.map Tool.name).contains (pyStrip ((pySplit (pyStrip p1) '(').headD "")) = false) :
    (s.iterate (.success t)).1.iteration = s.iteration + 1 ∧
    (s.iterate (.success t)).1.messages = s.messages ++ [⟨"model", t⟩] ∧
    (s.iterate (.success t)).2 =
      .ret (TextColor.MODEL ++ t ++ TextColor.RESET ++ "\n" ++ TextColor.OBSERVATION ++
        ("\nError: Function '" ++ pyStrip ((pySplit (pyStrip p1) '(').headD "") ++
          "' is not in the list of available tools") ++ TextColor.RESET) true := by
  have key : s.iterate (.success t) =
      ({ s with messages := s.messages ++ [⟨"model", t⟩], iteration := s.iteration + 1 },
        .ret (TextColor.MODEL ++ t ++ TextColor.RESET ++ "\n" ++ TextColor.OBSERVATION ++
          ("\nError: Function '" ++ pyStrip ((pySplit (pyStrip p1) '(').headD "") ++
            "' is not in the list of available tools") ++ TextColor.RESET) true) := by
    unfold TinyReAct.iterate
    rw [if_neg (by omega)]
    dsimp only [TinyReAct.reason]
    rw [if_neg hne, if_neg (by simp [hans]), if_pos hact, hlines]
    dsimp only
    rw [hsplit]
    dsimp only
    unfold TinyReAct.act
    dsimp only
    rw [if_pos hunknown]
  rw [key]
  exact ⟨rfl, rfl, rfl⟩

/-- C6 (witness): the theorem at the response "Action1: unknown_tool(5)"
on the default agent. -/
theorem C6_witness :
    (agent0.iterate (.success "Action1: unknown_tool(5)")).1.iteration = agent0.iteration + 1 ∧
    (agent0.iterate (.success "Action1: unknown_tool(5)")).1.messages =
      agent0.messages ++ [⟨"model", "Action1: unknown_tool(5)"⟩] ∧
    (agent0.iterate (.success "Action1: unknown_tool(5)")).2 =
      .ret (TextColor.MODEL ++ "Action1: unknown_tool(5)" ++ TextColor.RESET ++ "\n" ++ TextColor.OBSERVATION ++
        ("\nError: Function '" ++ pyStrip ((pySplit (pyStrip " unknown_tool(5)") '(').headD "") ++
          "' is not in the list of available tools") ++ TextColor.RESET) true :=
  C6_unknown_capability agent0 "Action1: unknown_tool(5)" (by decide) (by decide) (by decide) (by decide)
    "Action1: unknown_tool(5)" [] (by decide) "Action1" " unknown_tool(5)" [] (by decide) (by decide)

/-- C7 (counterexample): the parser does not take everything after the
first colon. With the response "Action1: mystery:tool(1)", the text after
the first colon is "mystery:tool(1)" and its capability name would be
"mystery:tool", yet the dispatcher sees only the segment between the first
and second colon, so the error Observation names "mystery" and never
mentions "mystery:tool". -/
theorem C7_counterexample :
    (agent0.iterate (.success "Action1: mystery:tool(1)")).2 =
      .ret (TextColor.MODEL ++ "Action1: mystery:tool(1)" ++ TextColor.RESET ++ "\n" ++ TextColor.OBSERVATION ++
        "\nError: Function 'mystery' is not in the list of available tools" ++ TextColor.RESET) true ∧
    pyContains "\nError: Function 'mystery' is not in the list of available tools" "mystery:tool" = false :=
  ⟨by decide, by decide⟩

/-- C7 (amended): when a response contains an `Action` token and at least
one line starting with `Action`, the parser selects the first such line in
document order (later ones are ignored), splits it on colons, and passes
exactly the stripped segment between the line's first and second colon to
the dispatcher — any text after a second colon is discarded, not included. -/
theorem C7_amended (s : TinyReAct) (t : String)
    (httl : s.iteration < s.ttl) (hne : t ≠ "")
    (hans : pyContains t "Answer" = false) (hact : pyContains t "Action" = true)
    (line : String) (rest : List String) (hlines : actionLines t = line :: rest)
    (p0 p1 : String) (ps : List String) (hsplit : pySplit line ':' = p0 :: p1 :: ps) :
    s.iterate (.success t) =
      ((({ s with
            messages := s.messages ++ [⟨"model", t⟩]
            iteration := s.iteration + 1 } : TinyReAct).act (pyStrip p1)).1,
        .ret (TextColor.MODEL ++ t ++ TextColor.RESET ++ "\n" ++ TextColor.OBSERVATION ++
          (({ s with
              messages := s.messages ++ [⟨"model", t⟩]
              iteration := s.iteration + 1 } : TinyReAct).act (pyStrip p1)).2 ++ TextColor.RESET) true) := by
  unfold TinyReAct.iterate
  rw [if_neg (by omega)]
  dsimp only [TinyReAct.reason]
  rw [if_neg hne, if_neg (by simp [hans]), if_pos hact, hlines]
  dsimp only
  rw [hsplit]

/-- C7 (witness): the amended theorem at a response with two Action lines
whose first line has a colon inside the argument text: the first line
wins and the dispatcher receives "add_numbers(1", the stripped segment
between that line's first and second colon. -/
theorem C7_witness :
    agent0.iterate (.success "Action1: add_numbers(1:2, 3)\nAction2: multiply_numbers(3, 4)") =
      ((({ agent0 with
            messages := agent0.messages ++
              [⟨"model", "Action1: add_numbers(1:2, 3)\nAction2: multiply_numbers(3, 4)"⟩]
            iteration := agent0.iteration + 1 } : TinyReAct).act (pyStrip " add_numbers(1")).1,
        .ret (TextColor.MODEL ++ "Action1: add_numbers(1:2, 3)\nAction2: multiply_numbers(3, 4)" ++
          TextColor.RESET ++ "\n" ++ TextColor.OBSERVATION ++
          (({ agent0 with
              messages := agent0.messages ++
                [⟨"model", "Action1: add_numbers(1:2, 3)\nAction2: multiply_numbers(3, 4)"⟩]
              iteration := agent0.iteration + 1 } : TinyReAct).act (pyStrip " add_numbers(1")).2 ++
          TextColor.RESET) true) :=
  C7_amended agent0 "Action1: add_numbers(1:2, 3)\nAction2: multiply_numbers(3, 4)"
    (by decide) (by decide) (by decide) (by decide)
    "Action1: add_numbers(1:2, 3)" ["Action2: multiply_numbers(3, 4)"] (by decide)
    "Action1" " add_numbers(1" ["2, 3)"] (by decide)

/-- C8 (counterexample): in the worked scenario the two Observation turns
appended by the dispatcher carry the texts "Observation1: 30" and
"Observation2: 40" — the dispatcher prefixes the iteration number — not
the bare "30" and "40" the claim states. -/
theorem C8_counterexample :
    ((c8Run.state.messages.drop 1).filter (fun turn => turn.role == "user")).map Turn.text ≠
      ["30", "40"] :=
  by decide

/-- C8 (amended): the scenario query "What is 10 * 3 + 10?" against the
scripted model (Action1: multiply_numbers(10, 3), then
Action2: add_numbers(30, 10), then Answer: 40) ends answered — the loop
returns the answer-coloured "Answer: 40" with `continue = false` after 3
model calls — with the iteration counter equal to 2, and the conversation
log after the seed turn holds exactly the two model action turns, the two
Observation turns "Observation1: 30" and "Observation2: 40" carrying the
dispatcher outputs 30 and 40 in that order, and the final answer turn. -/
theorem C8_amended :
    c8Run.outcome = LoopOutcome.done (TextColor.ANSWER ++ "Answer: 40" ++ TextColor.RESET) ∧
    c8Run.state.iteration = 2 ∧
    c8Run.modelCalls = 3 ∧
    ((c8Run.state.messages.drop 1).filter (fun turn => turn.role == "user")).map Turn.text =
      ["Observation1: 30", "Observation2: 40"] ∧
    (c8Run.state.messages.drop 1).map Turn.text =
      ["Action1: multiply_numbers(10, 3)", "Observation1: 30",
       "Action2: add_numbers(30, 10)", "Observation2: 40", "Answer: 40"] :=
  ⟨by decide, by decide, by decide, by decide, by decide⟩

/-- C9 (counterexample): constructing an agent whose tool list contains
`add_numbers` twice does not fail: the duplicate-name list is stored
verbatim, the agent starts normally and even dispatches the duplicated
capability, refuting fail-fast rejection of duplicate names. -/
theorem C9_counterexample :
    (TinyReAct.init 5 [add_numbers, add_numbers]).tools.map Tool.name =
      ["add_numbers", "add_numbers"] ∧
    (TinyReAct.init 5 [add_numbers, add_numbers]).iteration = 0 ∧
    (TinyReAct.init 5 [add_numbers, add_numbers]).ttl = 5 ∧
    ((TinyReAct.init 5 [add_numbers, add_numbers]).act "add_numbers(2, 3)").2 = "Observation0: 5" :=
  ⟨by decide, by decide, by decide, by decide⟩

/-- C9 (amended): construction performs no duplicate-name check: any tool
list, with or without repeated names, is accepted and stored verbatim,
with a zero counter and an empty log; every listed capability's name then
passes the dispatcher's registry-membership test. -/
theorem C9_amended (ttl : Nat) (tools : List Tool) :
    (TinyReAct.init ttl tools).tools = tools ∧
    (TinyReAct.init ttl tools).iteration = 0 ∧
    (TinyReAct.init ttl tools).messages = [] ∧
    (TinyReAct.init ttl tools).ttl = ttl ∧
    ∀ tool ∈ tools, (((TinyReAct.init ttl tools).tools.map Tool.name).contains tool.name) = true := by
  refine ⟨rfl, rfl, rfl, rfl, ?_⟩
  intro tool htool
  have : tool.name ∈ (TinyReAct.init ttl tools).tools.map Tool.name :=
    List.mem_map_of_mem Tool.name htool
  simpa using this

/-- C9 (witness): the amended theorem at a two-tool list with distinct
names; the membership consequence applied to `add_numbers`. -/
theorem C9_witness :
    (TinyReAct.init 5 [add_numbers, multiply_numbers]).tools = [add_numbers, multiply_numbers] ∧
    (TinyReAct.init 5 [add_numbers, multiply_numbers]).iteration = 0 ∧
    (((TinyReAct.init 5 [add_numbers, multiply_numbers]).tools.map Tool.name).contains add_numbers.name) = true :=
  ⟨(C9_amended 5 [add_numbers, multiply_numbers]).1,
   (C9_amended 5 [add_numbers, multiply_numbers]).2.1,
   (C9_amended 5 [add_numbers, multiply_numbers]).2.2.2.2 add_numbers (by simp)⟩

/-- C10: a second `query` on the same instance replaces the conversation
log with the single fresh seed turn built from the new query — whatever
the log held before — but the iteration counter and ttl carry over
unreset, so the run that follows can only grow the counter from its old
value up to the ttl: the action budget remaining to the second query is
the original ttl minus the iterations already consumed. -/
theorem C10_second_query (s : TinyReAct) (q : String) (model : Nat → ModelResponse) (fuel : Nat)
    (h : s.iteration ≤ s.ttl) :
    (s.startQuery q).messages = [⟨"user", seedText s.instruction_prompt q⟩] ∧
    (s.startQuery q).iteration = s.iteration ∧
    (s.startQuery q).ttl = s.ttl ∧
    s.iteration ≤ (s.query q model fuel).state.iteration ∧
    (s.query q model fuel).state.iteration ≤ s.ttl ∧
    (s.query q model fuel).state.iteration - s.iteration ≤ s.ttl - s.iteration := by
  have hmono : s.iteration ≤ (s.query q model fuel).state.iteration :=
    runLoop_iteration_mono model fuel (s.startQuery q) 0
  have hle : (s.query q model fuel).state.iteration ≤ s.ttl :=
    runLoop_iteration_le_ttl model fuel (s.startQuery q) 0 h
  exact ⟨rfl, rfl, rfl, hmono, hle, by omega⟩

/-- C10 (witness): the theorem on an agent that already spent 3 of its 5
iterations and still holds an old conversation log. -/
theorem C10_witness :
    (c10Agent.startQuery "second question").messages =
      [⟨"user", seedText c10Agent.instruction_prompt "second question"⟩] ∧
    (c10Agent.startQuery "second question").iteration = c10Agent.iteration ∧
    (c10Agent.startQuery "second question").ttl = c10Agent.ttl ∧
    c10Agent.iteration ≤
      (c10Agent.query "second question" (fun _ => ModelResponse.success "Action1: add_numbers(1, 1)") 6).state.iteration ∧
    (c10Agent.query "second question" (fun _ => ModelResponse.success "Action1: add_numbers(1, 1)") 6).state.iteration ≤
      c10Agent.ttl ∧
    (c10Agent.query "second question" (fun _ => ModelResponse.success "Action1: add_numbers(1, 1)") 6).state.iteration -
      c10Agent.iteration ≤ c10Agent.ttl - c10Agent.iteration :=
  C10_second_query c10Agent "second question"
    (fun _ => ModelResponse.success "Action1: add_numbers(1, 1)") 6 (by decide)
